import Mathlib

/-!
Verification of the chart-generation pipeline in `src/plot.py` of the
Algorithm_Lab repository.

The script is a linear pipeline: read `times.csv` into a data frame,
trim whitespace from the column headers, print the column list, plot one
line series per non-first column against the `Size` column, apply static
styling, set the x-axis ticks from the `Size` column, save `plot.png`,
and print a confirmation line.

The embedding below models the data frame as a `Dataset` (ordered column
names plus rows of integer cells), the matplotlib figure as a `Chart`
record built up by the same sequence of calls the script performs, and
the observable effects (standard output lines, files written) as part of
a `PState`.  Column lookup by label (`df["Size"]`, `df[col]`) is
`getCol`; a failed lookup models the `KeyError` pandas raises, which
aborts the script at that point.
-/

namespace AlgorithmLab

/-- Python `str.strip()` on the underlying character list: drop leading
whitespace, then drop trailing whitespace (modelled as reverse, drop
leading, reverse). -/
def stripChars (l : List Char) : List Char :=
  ((l.dropWhile Char.isWhitespace).reverse.dropWhile Char.isWhitespace).reverse

/-- Python `str.strip()` on strings, as used by `df.columns.str.strip()`
in `src/plot.py` line 8. -/
def stripName (s : String) : String :=
  ⟨stripChars s.data⟩

/-- A loaded data frame: ordered column labels and rows of cells. -/
structure Dataset where
  columns : List String
  rows : List (List Int)
deriving DecidableEq

/-- Position of a column label in the header list (first match). -/
def colIdx (cols : List String) (name : String) : Option Nat :=
  match cols with
  | [] => none
  | c :: rest => if c = name then some 0 else (colIdx rest name).map (fun i => i + 1)

/-- Label-based column extraction, `df[name]`: the cell of every row at
the label's position, in row order.  `none` models the `KeyError` raised
when the label is absent. -/
def getCol (df : Dataset) (name : String) : Option (List Int) :=
  (colIdx df.columns name).map (fun i => df.rows.map (fun r => r.getD i 0))

/-- `df.columns = df.columns.str.strip()` (line 8): trim every header,
leaving the rest of the data frame untouched. -/
def normalizeHeaders (df : Dataset) : Dataset :=
  { df with columns := df.columns.map stripName }

/-- One plotted line series, as produced by `plt.plot(df["Size"], df[col],
marker='o', linestyle='-', label=col)`. -/
structure Series where
  label : String
  xs : List Int
  ys : List Int
  marker : Char
  linestyle : String
deriving DecidableEq

/-- The state of the matplotlib figure built by the script. -/
structure Chart where
  series : List Series := []
  xlabel : Option String := none
  ylabel : Option String := none
  title : Option String := none
  legendOn : Bool := false
  grid : Option (Bool × String × ℚ) := none
  xticks : Option (List Int) := none
deriving DecidableEq

/-- One iteration of the plotting loop (line 13): look up `Size` and the
current column, append the new series; `none` models the `KeyError`. -/
def plotCall (df : Dataset) (col : String) (ch : Chart) : Option Chart :=
  match getCol df "Size", getCol df col with
  | some xs, some ys =>
      some { ch with series :=
        ch.series ++ [{ label := col, xs := xs, ys := ys, marker := 'o', linestyle := "-" }] }
  | _, _ => none

/-- The plotting loop of lines 12-13: `for col in df.columns[1:]`. -/
def renderSeries (df : Dataset) (cols : List String) (ch : Chart) : Option Chart :=
  match cols with
  | [] => some ch
  | c :: rest =>
    match plotCall df c ch with
    | none => none
    | some ch2 => renderSeries df rest ch2

/-- Lines 15-19: axis labels, title, legend, and the dashed grid at
opacity 0.7. -/
def applyStyling (ch : Chart) : Chart :=
  { ch with
    xlabel := some "Number of Matrices",
    ylabel := some "Execution Time (ms)",
    title := some "Matrix Chain Multiplication: D&C vs DP",
    legendOn := true,
    grid := some (true, "--", (7 : ℚ) / 10) }

/-- The labels shown in the legend: `plt.legend()` keys the legend by the
label of each plotted series. -/
def legendEntries (ch : Chart) : List String :=
  if ch.legendOn then ch.series.map Series.label else []

/-- A line written to standard output. -/
inductive OutLine where
  | columnsLine : List String → OutLine
  | doneLine : String → OutLine
deriving DecidableEq

/-- The confirmation message printed on line 26. -/
def doneMsg : String := "✅ Plot saved as plot.png (DP visible at 0)"

/-- One `plt.savefig` call with its arguments (line 25). -/
structure SaveCall where
  path : String
  dpi : Nat
  bboxInches : String
deriving DecidableEq

/-- Observable state of a run: stdout lines, the figure, files written. -/
structure PState where
  stdout : List OutLine
  chart : Chart
  saved : List SaveCall
deriving DecidableEq

/-- The script body after the CSV has been read (lines 8-26), threading
the observable state.  The second component is `some err` when an
uncaught `KeyError` aborts the run at that point, in which case the
returned state is the state reached so far. -/
def script (df0 : Dataset) : PState × Option String :=
  let df := normalizeHeaders df0
  let st1 : PState := { stdout := [OutLine.columnsLine df.columns], chart := {}, saved := [] }
  match renderSeries df (df.columns.drop 1) st1.chart with
  | none => (st1, some "KeyError")
  | some ch1 =>
    let ch2 := applyStyling ch1
    match getCol df "Size" with
    | none => ({ st1 with chart := ch2 }, some "KeyError")
    | some sizeVals =>
      let ch3 := { ch2 with xticks := some sizeVals }
      let st2 : PState := { stdout := st1.stdout, chart := ch3,
                            saved := [{ path := "plot.png", dpi := 300, bboxInches := "tight" }] }
      ({ st2 with stdout := st2.stdout ++ [OutLine.doneLine doneMsg] }, none)

/-- Kinds of failure of the load step, per the spec's error taxonomy. -/
inductive LoadError where
  | fileNotFound
  | parseError
deriving DecidableEq

/-- Modelled from the spec: `load(path) -> Dataset` (the behavior of
`pd.read_csv` on line 5, whose file-system interaction is not part of
the repository's source): it "parses the file into a table; fails with a
FileNotFound or ParseError kind if the file is missing or malformed".
The file system is a map from paths to `none` (missing file), `some
none` (present but malformed), or `some (some df)` (parses to `df`). -/
def load (fs : String → Option (Option Dataset)) (path : String) :
    Except LoadError Dataset :=
  match fs path with
  | none => .error .fileNotFound
  | some none => .error .parseError
  | some (some df) => .ok df

/-- The whole run of `src/plot.py`: read `times.csv`, then execute the
script body.  A load error propagates unchanged — nothing catches it. -/
def fullRun (fs : String → Option (Option Dataset)) :
    Except LoadError (PState × Option String) :=
  match load fs "times.csv" with
  | .error e => .error e
  | .ok df => .ok (script df)

/-- The files written by a run; a run that failed at the load step wrote
nothing. -/
def savedOf (r : Except LoadError (PState × Option String)) : List SaveCall :=
  match r with
  | .error _ => []
  | .ok st => st.1.saved

/-! ### Helper lemmas -/

theorem dropWhile_length_le (p : α → Bool) (l : List α) :
    (l.dropWhile p).length ≤ l.length := by
  induction l with
  | nil => simp
  | cons a t ih =>
    by_cases h : p a
    · simp only [List.dropWhile_cons, h, if_true, List.length_cons]
      omega
    · simp [List.dropWhile_cons, h]

theorem dropWhile_dropWhile (p : α → Bool) (l : List α) :
    (l.dropWhile p).dropWhile p = l.dropWhile p := by
  induction l with
  | nil => rfl
  | cons a t ih =>
    by_cases h : p a
    · simp [List.dropWhile_cons, h, ih]
    · simp [List.dropWhile_cons, h]

theorem dropWhile_fix_head (p : α → Bool) (a : α) (t : List α)
    (h : (a :: t).dropWhile p = a :: t) : p a = false := by
  by_cases hpa : p a
  · exfalso
    rw [List.dropWhile_cons, if_pos hpa] at h
    have hlen := dropWhile_length_le p t
    rw [h] at hlen
    simp at hlen
  · simpa using hpa

theorem stripChars_idem (l : List Char) : stripChars (stripChars l) = stripChars l := by
  unfold stripChars
  set p := Char.isWhitespace with hp
  set a := l.dropWhile p with ha
  set b := a.reverse.dropWhile p with hb
  have hstep1 : b.reverse.dropWhile p = b.reverse := by
    have hafix : a.dropWhile p = a := dropWhile_dropWhile p l
    have hdecomp : a.reverse.takeWhile p ++ b = a.reverse :=
      List.takeWhile_append_dropWhile p a.reverse
    have haeq : a = b.reverse ++ (a.reverse.takeWhile p).reverse := by
      have h2 := congrArg List.reverse hdecomp
      simpa [List.reverse_append] using h2.symm
    obtain ⟨u, haeq2⟩ : ∃ u, a = b.reverse ++ u := ⟨_, haeq⟩
    cases hs : b.reverse with
    | nil => simp
    | cons h t =>
      rw [hs, List.cons_append] at haeq2
      rw [haeq2] at hafix
      have hph : p h = false := dropWhile_fix_head p h (t ++ u) hafix
      rw [List.dropWhile_cons, if_neg (by simp [hph])]
  rw [hstep1, List.reverse_reverse, dropWhile_dropWhile]

theorem stripName_idem (s : String) : stripName (stripName s) = stripName s :=
  congrArg String.mk (stripChars_idem s.data)

theorem colIdx_isSome_of_mem {cols : List String} {name : String} (h : name ∈ cols) :
    (colIdx cols name).isSome = true := by
  induction cols with
  | nil => simp at h
  | cons c rest ih =>
    rw [colIdx]
    by_cases hc : c = name
    · simp [hc]
    · have hmem : name ∈ rest := by
        rcases List.mem_cons.mp h with h1 | h1
        · exact absurd h1.symm hc
        · exact h1
      have hsome := ih hmem
      cases hr : colIdx rest name with
      | none => rw [hr] at hsome; simp at hsome
      | some i => simp [hc, hr]

theorem colIdx_eq_none_of_not_mem {cols : List String} {name : String} (h : name ∉ cols) :
    colIdx cols name = none := by
  induction cols with
  | nil => rfl
  | cons c rest ih =>
    simp only [List.mem_cons, not_or] at h
    rw [colIdx, if_neg (fun hc => h.1 hc.symm), ih h.2]
    rfl

theorem getCol_isSome_of_mem {df : Dataset} {name : String} (h : name ∈ df.columns) :
    (getCol df name).isSome = true := by
  rw [getCol]
  have hsome := colIdx_isSome_of_mem h
  cases hr : colIdx df.columns name with
  | none => rw [hr] at hsome; simp at hsome
  | some i => simp

theorem getCol_eq_none_of_not_mem {df : Dataset} {name : String} (h : name ∉ df.columns) :
    getCol df name = none := by
  rw [getCol, colIdx_eq_none_of_not_mem h]
  rfl

theorem renderSeries_append (df : Dataset) {xs : List Int}
    (hS : getCol df "Size" = some xs)
    (cols : List String) (hc : ∀ c ∈ cols, c ∈ df.columns) (ch : Chart) :
    renderSeries df cols ch = some { ch with series := ch.series ++ cols.map (fun c =>
      { label := c, xs := xs, ys := (getCol df c).getD [],
        marker := 'o', linestyle := "-" }) } := by
  induction cols generalizing ch with
  | nil => simp [renderSeries]
  | cons c rest ih =>
    have hcmem : c ∈ df.columns := hc c (List.mem_cons_self c rest)
    have hys := getCol_isSome_of_mem hcmem
    cases hyc : getCol df c with
    | none => rw [hyc] at hys; simp at hys
    | some ys =>
      rw [renderSeries, plotCall, hS, hyc]
      simp only []
      rw [ih (fun x hx => hc x (List.mem_cons_of_mem c hx))]
      simp [hyc, List.append_assoc]

theorem renderSeries_none (df : Dataset) (hS : getCol df "Size" = none)
    (c : String) (rest : List String) (ch : Chart) :
    renderSeries df (c :: rest) ch = none := by
  rw [renderSeries, plotCall, hS]

/-- Master lemma, success path: when the trimmed headers contain `Size`
(so every lookup succeeds), the script runs to completion and the final
state is fully determined. -/
theorem script_of_mem (df : Dataset) (xs : List Int)
    (hS : getCol (normalizeHeaders df) "Size" = some xs) :
    script df =
      ({ stdout := [OutLine.columnsLine (normalizeHeaders df).columns,
                    OutLine.doneLine doneMsg],
         chart := { series := ((normalizeHeaders df).columns.drop 1).map (fun c =>
                      { label := c, xs := xs,
                        ys := (getCol (normalizeHeaders df) c).getD [],
                        marker := 'o', linestyle := "-" }),
                    xlabel := some "Number of Matrices",
                    ylabel := some "Execution Time (ms)",
                    title := some "Matrix Chain Multiplication: D&C vs DP",
                    legendOn := true,
                    grid := some (true, "--", (7 : ℚ) / 10),
                    xticks := some xs },
         saved := [{ path := "plot.png", dpi := 300, bboxInches := "tight" }] }, none) := by
  have hr := renderSeries_append (normalizeHeaders df) hS
      ((normalizeHeaders df).columns.drop 1)
      (fun c hc => List.mem_of_mem_drop hc) {}
  simp only [script, hr, hS, applyStyling]
  rfl

/-- Master lemma, failure path: when no trimmed header is `Size`, the
script aborts with a `KeyError` after printing the column list and
before saving anything. -/
theorem script_of_not_mem (df : Dataset)
    (h : "Size" ∉ (normalizeHeaders df).columns) :
    ∃ ch, script df =
      ({ stdout := [OutLine.columnsLine (normalizeHeaders df).columns],
         chart := ch, saved := [] }, some "KeyError") := by
  have hS : getCol (normalizeHeaders df) "Size" = none :=
    getCol_eq_none_of_not_mem h
  cases hd : (normalizeHeaders df).columns.drop 1 with
  | nil =>
    refine ⟨applyStyling {}, ?_⟩
    simp only [script, hd, renderSeries, hS]
  | cons c rest =>
    refine ⟨{}, ?_⟩
    have hr := renderSeries_none (normalizeHeaders df) hS c rest {}
    simp only [script, hd, hr]

theorem exists_size_of_success (df : Dataset) (h : (script df).2 = none) :
    ∃ xs, getCol (normalizeHeaders df) "Size" = some xs := by
  by_cases hm : "Size" ∈ (normalizeHeaders df).columns
  · have hs := getCol_isSome_of_mem hm
    cases hg : getCol (normalizeHeaders df) "Size" with
    | none => rw [hg] at hs; simp at hs
    | some xs => exact ⟨xs, rfl⟩
  · obtain ⟨ch, hsc⟩ := script_of_not_mem df hm
    rw [hsc] at h
    simp at h

/-! ### Concrete datasets -/

/-- The spec's main scenario: columns `Size, DP , DC` (with incidental
whitespace) and rows `(1,10,12), (2,20,18)`. -/
def dfEx : Dataset :=
  { columns := ["Size", " DP ", "DC "], rows := [[1, 10, 12], [2, 20, 18]] }

/-- A dataset whose `Size` column contains a duplicate value. -/
def dfDup : Dataset :=
  { columns := ["Size", "DP"], rows := [[1, 10], [1, 12]] }

/-- A dataset whose only column is (after trimming) `Size`. -/
def dfSizeOnly : Dataset :=
  { columns := ["Size "], rows := [[1], [2]] }

/-- A dataset none of whose trimmed column names is `Size`. -/
def dfNoSize : Dataset :=
  { columns := ["N", "DP"], rows := [[1, 2]] }

/-- A file system in which every path is missing. -/
def fsEmpty : String → Option (Option Dataset) := fun _ => none

/-! ### Claims -/

/-- C1 (counterexample): on a dataset whose `Size` column is `[1, 1]`,
the script sets the x-axis ticks to `[1, 1]` — one tick per row — and
not to the distinct values `[1]`, so duplicate `Size` values do not
contribute a single tick. -/
theorem c1_xticks_counterexample :
    getCol (normalizeHeaders dfDup) "Size" = some [1, 1] ∧
    (([1, 1] : List Int).dedup = [1]) ∧
    (script dfDup).1.chart.xticks = some [1, 1] ∧
    (script dfDup).1.chart.xticks ≠ some (([1, 1] : List Int).dedup) := by
  exact ⟨by decide, by decide, by decide, by decide⟩

/-- C1 (amended): on every successful run the x-axis ticks are set to
the `Size` column values in their existing row order, one per row; when
those values are already distinct this is exactly the set of distinct
`Size` values, but duplicated values contribute one coincident tick per
occurrence. -/
theorem c1_xticks (df : Dataset) (h : (script df).2 = none) :
    (script df).1.chart.xticks = some ((getCol (normalizeHeaders df) "Size").getD []) ∧
    ∀ sz, getCol (normalizeHeaders df) "Size" = some sz → sz.Nodup →
      (script df).1.chart.xticks = some sz.dedup := by
  obtain ⟨xs, hg⟩ := exists_size_of_success df h
  rw [script_of_mem df xs hg]
  constructor
  · simp [hg]
  · intro sz hsz hnd
    rw [hg] at hsz
    injection hsz with hsz
    subst hsz
    rw [List.dedup_eq_self.mpr hnd]

/-- C1 (witness for the amended theorem at the dataset `dfEx`). -/
theorem c1_xticks_witness :
    (script dfEx).2 = none ∧
    ((script dfEx).1.chart.xticks =
        some ((getCol (normalizeHeaders dfEx) "Size").getD []) ∧
      ∀ sz, getCol (normalizeHeaders dfEx) "Size" = some sz → sz.Nodup →
        (script dfEx).1.chart.xticks = some sz.dedup) :=
  ⟨by decide, c1_xticks dfEx (by decide)⟩

/-- C2: when some trimmed column is named `Size`, the script plots
exactly one series per column except the first: the series list is the
map over the trimmed non-first columns, each series labeled by the
trimmed column name, with marker `o`, solid linestyle, and x-values the
`Size` column in row order (no sorting and no deduplication — `getCol`
returns the rows as they are). -/
theorem c2_renderSeries (df : Dataset) (h : "Size" ∈ df.columns.map stripName) :
    (script df).2 = none ∧
    (script df).1.chart.series.length = df.columns.length - 1 ∧
    (script df).1.chart.series =
      ((normalizeHeaders df).columns.drop 1).map (fun c =>
        { label := c,
          xs := (getCol (normalizeHeaders df) "Size").getD [],
          ys := (getCol (normalizeHeaders df) c).getD [],
          marker := 'o', linestyle := "-" }) := by
  have hm : "Size" ∈ (normalizeHeaders df).columns := h
  have hs := getCol_isSome_of_mem hm
  cases hg : getCol (normalizeHeaders df) "Size" with
  | none => rw [hg] at hs; simp at hs
  | some xs =>
    rw [script_of_mem df xs hg]
    refine ⟨rfl, ?_, ?_⟩
    · simp [normalizeHeaders]
    · simp [hg]

/-- C2 (witness at the spec's scenario dataset). -/
theorem c2_renderSeries_witness :
    "Size" ∈ dfEx.columns.map stripName ∧
    ((script dfEx).2 = none ∧
      (script dfEx).1.chart.series.length = dfEx.columns.length - 1 ∧
      (script dfEx).1.chart.series =
        ((normalizeHeaders dfEx).columns.drop 1).map (fun c =>
          { label := c,
            xs := (getCol (normalizeHeaders dfEx) "Size").getD [],
            ys := (getCol (normalizeHeaders dfEx) c).getD [],
            marker := 'o', linestyle := "-" })) :=
  ⟨by decide, c2_renderSeries dfEx (by decide)⟩

/-- C3: header normalization is idempotent — trimming the headers twice
yields the same dataset as trimming them once. -/
theorem c3_normalizeHeaders_idem (df : Dataset) :
    normalizeHeaders (normalizeHeaders df) = normalizeHeaders df := by
  unfold normalizeHeaders
  simp only [List.map_map]
  congr 1
  exact List.map_congr_left (fun s _ => stripName_idem s)

/-- C4: every successful run writes exactly two lines to standard
output — first the trimmed column names, then the confirmation
message. -/
theorem c4_stdout (df : Dataset) (h : (script df).2 = none) :
    (script df).1.stdout =
      [OutLine.columnsLine (df.columns.map stripName), OutLine.doneLine doneMsg] ∧
    (script df).1.stdout.length = 2 := by
  obtain ⟨xs, hg⟩ := exists_size_of_success df h
  rw [script_of_mem df xs hg]
  exact ⟨rfl, rfl⟩

/-- C4 (witness at the spec's scenario dataset). -/
theorem c4_stdout_witness :
    (script dfEx).2 = none ∧
    ((script dfEx).1.stdout =
        [OutLine.columnsLine (dfEx.columns.map stripName), OutLine.doneLine doneMsg] ∧
      (script dfEx).1.stdout.length = 2) :=
  ⟨by decide, c4_stdout dfEx (by decide)⟩

/-- C5: every successful run produces a chart with x-label "Number of
Matrices", y-label "Execution Time (ms)", the D&C-vs-DP title, a legend
keyed by the labels of the plotted series, and a dashed grid at opacity
0.7. -/
theorem c5_styling (df : Dataset) (h : (script df).2 = none) :
    (script df).1.chart.xlabel = some "Number of Matrices" ∧
    (script df).1.chart.ylabel = some "Execution Time (ms)" ∧
    (script df).1.chart.title = some "Matrix Chain Multiplication: D&C vs DP" ∧
    (script df).1.chart.legendOn = true ∧
    legendEntries (script df).1.chart = (script df).1.chart.series.map Series.label ∧
    (script df).1.chart.grid = some (true, "--", (7 : ℚ) / 10) := by
  obtain ⟨xs, hg⟩ := exists_size_of_success df h
  rw [script_of_mem df xs hg]
  exact ⟨rfl, rfl, rfl, rfl, rfl, rfl⟩

/-- C5 (witness at the spec's scenario dataset). -/
theorem c5_styling_witness :
    (script dfEx).2 = none ∧
    ((script dfEx).1.chart.xlabel = some "Number of Matrices" ∧
      (script dfEx).1.chart.ylabel = some "Execution Time (ms)" ∧
      (script dfEx).1.chart.title = some "Matrix Chain Multiplication: D&C vs DP" ∧
      (script dfEx).1.chart.legendOn = true ∧
      legendEntries (script dfEx).1.chart = (script dfEx).1.chart.series.map Series.label ∧
      (script dfEx).1.chart.grid = some (true, "--", (7 : ℚ) / 10)) :=
  ⟨by decide, c5_styling dfEx (by decide)⟩

/-- C6: every successful run saves exactly one file, `plot.png`, at 300
dots-per-inch with tight bounding-box cropping. -/
theorem c6_save (df : Dataset) (h : (script df).2 = none) :
    (script df).1.saved = [{ path := "plot.png", dpi := 300, bboxInches := "tight" }] := by
  obtain ⟨xs, hg⟩ := exists_size_of_success df h
  rw [script_of_mem df xs hg]

/-- C6 (witness at the spec's scenario dataset). -/
theorem c6_save_witness :
    (script dfEx).2 = none ∧
    (script dfEx).1.saved = [{ path := "plot.png", dpi := 300, bboxInches := "tight" }] :=
  ⟨by decide, c6_save dfEx (by decide)⟩

/-- C7: a missing input file fails the load step with the FileNotFound
kind and a malformed one with the ParseError kind; the error propagates
to the whole run unchanged (nothing catches it) and no output file is
written. -/
theorem c7_load_failure (fs : String → Option (Option Dataset))
    (h : fs "times.csv" = none ∨ fs "times.csv" = some none) :
    savedOf (fullRun fs) = [] ∧
    ((fs "times.csv" = none ∧ fullRun fs = Except.error LoadError.fileNotFound) ∨
     (fs "times.csv" = some none ∧ fullRun fs = Except.error LoadError.parseError)) := by
  rcases h with h | h
  · have he : fullRun fs = Except.error LoadError.fileNotFound := by
      simp only [fullRun, load, h]
    rw [he]
    exact ⟨rfl, Or.inl ⟨h, rfl⟩⟩
  · have he : fullRun fs = Except.error LoadError.parseError := by
      simp only [fullRun, load, h]
    rw [he]
    exact ⟨rfl, Or.inr ⟨h, rfl⟩⟩

/-- C7 (witness at the empty file system, where `times.csv` is missing). -/
theorem c7_load_failure_witness :
    savedOf (fullRun fsEmpty) = [] ∧
    ((fsEmpty "times.csv" = none ∧ fullRun fsEmpty = Except.error LoadError.fileNotFound) ∨
     (fsEmpty "times.csv" = some none ∧ fullRun fsEmpty = Except.error LoadError.parseError)) :=
  c7_load_failure fsEmpty (Or.inl rfl)

/-- C8: on a table whose only (trimmed) column is `Size`, the run
succeeds with zero plotted series, still saves `plot.png`, and the
legend is empty but valid. -/
theorem c8_size_only (df : Dataset) (h : df.columns.map stripName = ["Size"]) :
    (script df).2 = none ∧
    (script df).1.chart.series = [] ∧
    (script df).1.saved = [{ path := "plot.png", dpi := 300, bboxInches := "tight" }] ∧
    legendEntries (script df).1.chart = [] := by
  have hm : "Size" ∈ (normalizeHeaders df).columns := by
    show "Size" ∈ df.columns.map stripName
    rw [h]
    exact List.mem_singleton.mpr rfl
  have hs := getCol_isSome_of_mem hm
  cases hg : getCol (normalizeHeaders df) "Size" with
  | none => rw [hg] at hs; simp at hs
  | some xs =>
    rw [script_of_mem df xs hg]
    have hd : (normalizeHeaders df).columns.drop 1 = [] := by
      show (df.columns.map stripName).drop 1 = []
      rw [h]
      rfl
    refine ⟨rfl, ?_, rfl, ?_⟩
    · simp [hd]
    · simp [legendEntries, hd]

/-- C8 (witness at the one-column dataset `dfSizeOnly`). -/
theorem c8_size_only_witness :
    dfSizeOnly.columns.map stripName = ["Size"] ∧
    ((script dfSizeOnly).2 = none ∧
      (script dfSizeOnly).1.chart.series = [] ∧
      (script dfSizeOnly).1.saved =
        [{ path := "plot.png", dpi := 300, bboxInches := "tight" }] ∧
      legendEntries (script dfSizeOnly).1.chart = []) :=
  ⟨by decide, c8_size_only dfSizeOnly (by decide)⟩

/-- C9: header normalization changes only the column names — the rows
(cell values in their order) are untouched, the number of columns is
unchanged, and each position holds the trimmed version of the name that
was there before. -/
theorem c9_frame (df : Dataset) :
    (normalizeHeaders df).rows = df.rows ∧
    (normalizeHeaders df).columns.length = df.columns.length ∧
    ∀ i : Nat, (normalizeHeaders df).columns[i]? = (df.columns[i]?).map stripName := by
  refine ⟨rfl, ?_, ?_⟩
  · simp [normalizeHeaders]
  · intro i
    simp [normalizeHeaders, List.getElem?_map]

/-- C10: when no trimmed column name is `Size`, the run aborts with an
uncaught `KeyError` — raised either by a `plt.plot` lookup or, when
there is no non-first column, by the `plt.xticks` lookup — after the
column list has been printed and before anything is saved, so no
`plot.png` is produced. -/
theorem c10_missing_size (df : Dataset) (h : "Size" ∉ df.columns.map stripName) :
    (script df).2.isSome = true ∧
    (script df).1.saved = [] ∧
    (script df).1.stdout = [OutLine.columnsLine (df.columns.map stripName)] := by
  obtain ⟨ch, hsc⟩ := script_of_not_mem df h
  rw [hsc]
  exact ⟨rfl, rfl, rfl⟩

/-- C10 (witness at the dataset `dfNoSize`, whose columns are `N` and `DP`). -/
theorem c10_missing_size_witness :
    "Size" ∉ dfNoSize.columns.map stripName ∧
    ((script dfNoSize).2.isSome = true ∧
      (script dfNoSize).1.saved = [] ∧
      (script dfNoSize).1.stdout = [OutLine.columnsLine (dfNoSize.columns.map stripName)]) :=
  ⟨by decide, c10_missing_size dfNoSize (by decide)⟩

end AlgorithmLab
